import Mathlib

/-
Verification of the technical-indicator and setup-classification engine of
the stock-scanner repository.

The engine lives in `calculate_technicals` in `src/scan.py` and (as a near
duplicate) in `src/api/scan_disabled.py`.  It receives a DataFrame with
columns Open, High, Low, Close, Volume; we embed one row as a `Bar` of
rationals and a DataFrame as a `List Bar`.

Modelling conventions:
- Floating-point numbers are modelled as rationals.
- A pandas rolling window with fewer than `window` observations yields NaN,
  and the explicit `pad` helper prepends Python `None` entries.  Every
  Python comparison `x > y` in the setup predicates evaluates to `False`
  when one side is NaN, exactly as it does when the code guards with
  `is not None`; so both NaN and None are modelled as `Option.none`, and
  the comparison helpers `gtOpt`/`ltOpt` return `false` on `none`.
- `roll_up / roll_down` (elementwise float division and the arithmetic
  `100 - 100 / (1 + rs)`) is modelled by `rsiEntry`: when the average loss
  is `0` and the average gain is positive, the float quotient is `inf` and
  the expression evaluates to exactly `100.0`; when both averages are `0`
  the quotient is NaN and the entry stays absent.
- `calculate_technicals` on an empty series raises an IndexError (the
  expression `sma50[i]` with `i = -1` indexes the empty SMA list), which we
  model as `Option.none` of the whole computation.
-/

/-- One daily OHLCV bar: columns Open, High, Low, Close, Volume of the
input DataFrame, one row per trading day. -/
structure Bar where
  Open : ℚ
  High : ℚ
  Low : ℚ
  Close : ℚ
  Volume : ℚ
deriving DecidableEq

/-- Source: `closes = df["Close"].values` -/
def closes (df : List Bar) : List ℚ := df.map Bar.Close

/-- Source: `highs = df["High"].values` -/
def highs (df : List Bar) : List ℚ := df.map Bar.High

/-- Source: `lows = df["Low"].values` -/
def lows (df : List Bar) : List ℚ := df.map Bar.Low

/-- Source: `volumes = df["Volume"].values` -/
def volumes (df : List Bar) : List ℚ := df.map Bar.Volume

/-- Source: `df["Open"].values` (read through `.iloc` in the predicates) -/
def opens (df : List Bar) : List ℚ := df.map Bar.Open

/-- Source: `pd.Series(xs).rolling(window=w).mean()`: entry `i` is NaN (here `none`)
while fewer than `w` observations exist, i.e. while `i + 1 < w`; otherwise it
is the arithmetic mean of `xs[i-w+1 .. i]`. -/
def rollingMean (w : Nat) (xs : List ℚ) : List (Option ℚ) :=
  (List.range xs.length).map fun i =>
    if i + 1 < w then none
    else some ((((xs.drop (i + 1 - w)).take w).sum) / (w : ℚ))

/-- Source: `pd.Series(xs).rolling(window=w).max()`: same absence rule, value is the
maximum of the trailing window. -/
def rollingMax (w : Nat) (xs : List ℚ) : List (Option ℚ) :=
  (List.range xs.length).map fun i =>
    if i + 1 < w then none
    else ((xs.drop (i + 1 - w)).take w).max?

/-- Source: `np.diff(xs)`: `delta[j] = xs[j+1] - xs[j]`, one element shorter. -/
def diff (xs : List ℚ) : List ℚ := List.zipWith (fun a b => b - a) xs xs.tail

/-- The `pad` helper of both source files: left-pad an indicator array with
Python `None` entries until it has the length of the raw series. -/
def pad (arr : List (Option ℚ)) (len : Nat) : List (Option ℚ) :=
  List.replicate (len - arr.length) none ++ arr

/-- Python comparison `x > o` where `o` may be NaN/None: absent compares
`False`. -/
def gtOpt (x : ℚ) (o : Option ℚ) : Bool :=
  match o with
  | some v => decide (v < x)
  | none => false

/-- Python comparison `x < o` where `o` may be NaN/None: absent compares
`False`. -/
def ltOpt (x : ℚ) (o : Option ℚ) : Bool :=
  match o with
  | some v => decide (x < v)
  | none => false

/-- Elementwise model of `rs = roll_up / roll_down` followed by
`100 - (100 / (1 + rs))` under IEEE float semantics on the reachable
values (both averages are non-negative): if either rolling mean is still
absent the result is absent; if the average loss is `0` and the average
gain is `0` the quotient is NaN and the result is absent; if the average
loss is `0` and the average gain is nonzero the quotient is `inf` and the
expression collapses to exactly `100`; otherwise ordinary arithmetic. -/
def rsiEntry (u d : Option ℚ) : Option ℚ :=
  match u, d with
  | some g, some s =>
      if s = 0 then (if g = 0 then none else some 100)
      else some (100 - 100 / (1 + g / s))
  | _, _ => none

/-- The dictionary returned by `calculate_technicals`. -/
structure TechResult where
  sma20 : List (Option ℚ)
  sma50 : List (Option ℚ)
  valid : Bool
  setup : String
deriving DecidableEq

/-- Source: `i = len(closes) - 1`, the index of the most recent bar (0 when the
series is empty, where the Python `-1` is only ever used under guards that
fail). -/
def lastIdx (df : List Bar) : Nat := (closes df).length - 1

namespace scan

/-- Source: `sma20 = pad(pd.Series(closes).rolling(window=20).mean().tolist(), len(closes))` -/
def sma20 (df : List Bar) : List (Option ℚ) :=
  pad (rollingMean 20 (closes df)) (closes df).length

/-- Source: `sma50 = pad(pd.Series(closes).rolling(window=50).mean().tolist(), len(closes))` -/
def sma50 (df : List Bar) : List (Option ℚ) :=
  pad (rollingMean 50 (closes df)) (closes df).length

/-- Source: `delta = np.diff(closes)` -/
def delta (df : List Bar) : List ℚ := diff (closes df)

/-- Source: `up = np.where(delta > 0, delta, 0)` -/
def up (df : List Bar) : List ℚ := (delta df).map fun d => if 0 < d then d else 0

/-- Source: `down = np.where(delta < 0, -delta, 0)` -/
def down (df : List Bar) : List ℚ := (delta df).map fun d => if d < 0 then -d else 0

/-- Source: `roll_up = pd.Series(up).rolling(14).mean()` -/
def roll_up (df : List Bar) : List (Option ℚ) := rollingMean 14 (up df)

/-- Source: `roll_down = pd.Series(down).rolling(14).mean()` -/
def roll_down (df : List Bar) : List (Option ℚ) := rollingMean 14 (down df)

/-- Source: `rsi = pad((100 - (100 / (1 + roll_up / roll_down))).tolist(), len(closes))` -/
def rsi (df : List Bar) : List (Option ℚ) :=
  pad (List.zipWith rsiEntry (roll_up df) (roll_down df)) (closes df).length

/-- Source: `high20 = pad(pd.Series(highs).rolling(window=20).max().tolist(), len(closes))` -/
def high20 (df : List Bar) : List (Option ℚ) :=
  pad (rollingMax 20 (highs df)) (closes df).length

/-- Source: `avg_vol20 = pad(pd.Series(volumes).rolling(window=20).mean().tolist(), len(closes))` -/
def avg_vol20 (df : List Bar) : List (Option ℚ) :=
  pad (rollingMean 20 (volumes df)) (closes df).length

/-- Source: `breakout = closes[i] > high20[i - 1] if i - 1 >= 0 else False` -/
def breakout (df : List Bar) : Bool :=
  let i := lastIdx df
  if 1 ≤ i then gtOpt ((closes df).getD i 0) ((high20 df).getD (i - 1) none)
  else false

/-- Source: `pullback_bounce = (closes[i] > sma50[i] if sma50[i] is not None else False)
and (lows[i-1] < sma20[i-1] if i-1 >= 0 and sma20[i-1] is not None else False)
and (closes[i] > closes[i-1] if i-1 >= 0 else False)` -/
def pullback_bounce (df : List Bar) : Bool :=
  let i := lastIdx df
  (if ((sma50 df).getD i none).isSome then
     gtOpt ((closes df).getD i 0) ((sma50 df).getD i none)
   else false)
  && (if decide (1 ≤ i) && ((sma20 df).getD (i - 1) none).isSome then
        ltOpt ((lows df).getD (i - 1) 0) ((sma20 df).getD (i - 1) none)
      else false)
  && (if 1 ≤ i then decide ((closes df).getD (i - 1) 0 < (closes df).getD i 0)
      else false)

/-- Source: `volume_spike = volumes[i] > avg_vol20[i] * 1.5 if avg_vol20[i] is not None else False` -/
def volume_spike (df : List Bar) : Bool :=
  let i := lastIdx df
  if ((avg_vol20 df).getD i none).isSome then
    gtOpt ((volumes df).getD i 0) (((avg_vol20 df).getD i none).map (fun v => v * (1.5 : ℚ)))
  else false

/-- Source: `big_green = closes[i] > df["Open"].iloc[i] and closes[i] > highs[i - 1] if i - 1 >= 0 else False`
(the conditional expression binds last, so the guard covers the whole
conjunction). -/
def big_green (df : List Bar) : Bool :=
  let i := lastIdx df
  if 1 ≤ i then
    decide ((opens df).getD i 0 < (closes df).getD i 0)
      && decide ((highs df).getD (i - 1) 0 < (closes df).getD i 0)
  else false

/-- Source: `rsi_strength = rsi[i] is not None and rsi[i] > 55` -/
def rsi_strength (df : List Bar) : Bool :=
  let i := lastIdx df
  ((rsi df).getD i none).isSome && ltOpt 55 ((rsi df).getD i none)

/-- Source: `above_sma20 = sma20[i] is not None and closes[i] > sma20[i]` -/
def above_sma20 (df : List Bar) : Bool :=
  let i := lastIdx df
  ((sma20 df).getD i none).isSome && gtOpt ((closes df).getD i 0) ((sma20 df).getD i none)

/-- Source: `bullish_momentum = volume_spike and big_green and rsi_strength and above_sma20` -/
def bullish_momentum (df : List Bar) : Bool :=
  volume_spike df && big_green df && rsi_strength df && above_sma20 df

/-- Source: `calculate_technicals` of `src/scan.py`.  On the empty series the Python
function raises an IndexError (`sma50[i]` with `i = -1` on the empty list
while evaluating `pullback_bounce`), modelled as `none`; otherwise it
returns the result dictionary. -/
def calculate_technicals (df : List Bar) : Option TechResult :=
  if (closes df).length = 0 then none
  else some
    { sma20 := sma20 df
      sma50 := sma50 df
      valid := breakout df || pullback_bounce df || bullish_momentum df
      setup :=
        if breakout df then "Breakout setup"
        else if pullback_bounce df then "Pullback & bounce setup"
        else if bullish_momentum df then "Bullish momentum setup"
        else "No clear setup" }

end scan

namespace api

/-- Source: `sma20` of `src/api/scan_disabled.py` (same expression). -/
def sma20 (df : List Bar) : List (Option ℚ) :=
  pad (rollingMean 20 (closes df)) (closes df).length

/-- Source: `sma50` of `src/api/scan_disabled.py`. -/
def sma50 (df : List Bar) : List (Option ℚ) :=
  pad (rollingMean 50 (closes df)) (closes df).length

/-- Source: `rsi` of `src/api/scan_disabled.py` (same pipeline). -/
def rsi (df : List Bar) : List (Option ℚ) :=
  pad (List.zipWith rsiEntry (rollingMean 14 ((diff (closes df)).map fun d => if 0 < d then d else 0))
        (rollingMean 14 ((diff (closes df)).map fun d => if d < 0 then -d else 0)))
    (closes df).length

/-- Source: `high20` of `src/api/scan_disabled.py`. -/
def high20 (df : List Bar) : List (Option ℚ) :=
  pad (rollingMax 20 (highs df)) (closes df).length

/-- Source: `avg_vol20` of `src/api/scan_disabled.py`. -/
def avg_vol20 (df : List Bar) : List (Option ℚ) :=
  pad (rollingMean 20 (volumes df)) (closes df).length

/-- Source: `breakout = closes[i] > high20[i - 1] if i - 1 >= 0 else False` (identical
in both files). -/
def breakout (df : List Bar) : Bool :=
  let i := lastIdx df
  if 1 ≤ i then gtOpt ((closes df).getD i 0) ((high20 df).getD (i - 1) none)
  else false

/-- Source: `pullback = (sma50[i] is not None and closes[i] > sma50[i] and i - 1 >= 0
and sma20[i-1] is not None and lows[i-1] < sma20[i-1] and closes[i] > closes[i-1])`
— the flat guard chain of `scan_disabled.py`. -/
def pullback (df : List Bar) : Bool :=
  let i := lastIdx df
  ((sma50 df).getD i none).isSome
  && gtOpt ((closes df).getD i 0) ((sma50 df).getD i none)
  && decide (1 ≤ i)
  && ((sma20 df).getD (i - 1) none).isSome
  && ltOpt ((lows df).getD (i - 1) 0) ((sma20 df).getD (i - 1) none)
  && decide ((closes df).getD (i - 1) 0 < (closes df).getD i 0)

/-- Source: `volume_spike = avg_vol20[i] is not None and volumes[i] > avg_vol20[i] * 1.5` -/
def volume_spike (df : List Bar) : Bool :=
  let i := lastIdx df
  ((avg_vol20 df).getD i none).isSome
  && gtOpt ((volumes df).getD i 0) (((avg_vol20 df).getD i none).map (fun v => v * (1.5 : ℚ)))

/-- Source: `big_green = i - 1 >= 0 and closes[i] > df["Open"].iloc[i] and closes[i] > highs[i - 1]` -/
def big_green (df : List Bar) : Bool :=
  let i := lastIdx df
  decide (1 ≤ i)
  && decide ((opens df).getD i 0 < (closes df).getD i 0)
  && decide ((highs df).getD (i - 1) 0 < (closes df).getD i 0)

/-- Source: `rsi_strength = rsi[i] is not None and rsi[i] > 55` -/
def rsi_strength (df : List Bar) : Bool :=
  let i := lastIdx df
  ((rsi df).getD i none).isSome && ltOpt 55 ((rsi df).getD i none)

/-- Source: `above_sma20 = sma20[i] is not None and closes[i] > sma20[i]` -/
def above_sma20 (df : List Bar) : Bool :=
  let i := lastIdx df
  ((sma20 df).getD i none).isSome && gtOpt ((closes df).getD i 0) ((sma20 df).getD i none)

/-- Source: `bullish = volume_spike and big_green and rsi_strength and above_sma20` -/
def bullish (df : List Bar) : Bool :=
  volume_spike df && big_green df && rsi_strength df && above_sma20 df

/-- Source: `calculate_technicals` of `src/api/scan_disabled.py`; the empty series
again raises an IndexError (`sma50[i]`, `i = -1`), modelled as `none`. -/
def calculate_technicals (df : List Bar) : Option TechResult :=
  if (closes df).length = 0 then none
  else some
    { sma20 := sma20 df
      sma50 := sma50 df
      valid := breakout df || pullback df || bullish df
      setup :=
        if breakout df then "Breakout setup"
        else if pullback df then "Pullback & bounce setup"
        else if bullish df then "Bullish momentum setup"
        else "No clear setup" }

end api

/-- A series of 16 bars with strictly increasing closes (every delta is `+1`). -/
def incSeries : List Bar :=
  (List.range 16).map fun k => ⟨(k : ℚ), (k : ℚ), (k : ℚ), (k : ℚ), 1000⟩

/-- A series of 16 identical flat bars (every delta is `0`). -/
def flatSeries : List Bar := List.replicate 16 ⟨100, 100, 100, 100, 1000⟩

/-- The breakout scenario of the spec: 59 flat bars with close 100 and high
101, then a final bar with close 105 and high 106, volume unchanged. -/
def breakoutSeries : List Bar :=
  List.replicate 59 ⟨100, 101, 100, 100, 1000⟩ ++ [⟨100, 106, 100, 105, 1000⟩]

section Lemmas

lemma closes_length (df : List Bar) : (closes df).length = df.length :=
  List.length_map _ _

lemma highs_length (df : List Bar) : (highs df).length = df.length :=
  List.length_map _ _

lemma volumes_length (df : List Bar) : (volumes df).length = df.length :=
  List.length_map _ _

lemma rollingMean_length (w : Nat) (xs : List ℚ) :
    (rollingMean w xs).length = xs.length := by
  simp [rollingMean]

lemma rollingMax_length (w : Nat) (xs : List ℚ) :
    (rollingMax w xs).length = xs.length := by
  simp [rollingMax]

lemma getD_map_range (f : Nat → Option ℚ) (n i : Nat) (h : i < n) :
    ((List.range n).map f).getD i none = f i := by
  rw [List.getD_eq_getElem?_getD, List.getElem?_map, List.getElem?_range h]
  rfl

lemma rollingMean_getD (w : Nat) (xs : List ℚ) (i : Nat) (h : i < xs.length) :
    (rollingMean w xs).getD i none =
      if i + 1 < w then none
      else some ((((xs.drop (i + 1 - w)).take w).sum) / (w : ℚ)) := by
  unfold rollingMean
  exact getD_map_range _ _ _ h

lemma rollingMax_getD (w : Nat) (xs : List ℚ) (i : Nat) (h : i < xs.length) :
    (rollingMax w xs).getD i none =
      if i + 1 < w then none
      else ((xs.drop (i + 1 - w)).take w).max? := by
  unfold rollingMax
  exact getD_map_range _ _ _ h

lemma getD_eq_none_of_le (l : List (Option ℚ)) (i : Nat) (h : l.length ≤ i) :
    l.getD i none = none :=
  List.getD_eq_default _ _ h

lemma rollingMean_getD_eq_none_iff (w : Nat) (xs : List ℚ) (i : Nat)
    (h : i < xs.length) :
    (rollingMean w xs).getD i none = none ↔ i + 1 < w := by
  rw [rollingMean_getD w xs i h]
  split <;> simp_all

lemma pad_eq_self (arr : List (Option ℚ)) (len : Nat) (h : arr.length = len) :
    pad arr len = arr := by
  simp [pad, h]

lemma sma20_eq (df : List Bar) : scan.sma20 df = rollingMean 20 (closes df) :=
  pad_eq_self _ _ (rollingMean_length _ _)

lemma sma50_eq (df : List Bar) : scan.sma50 df = rollingMean 50 (closes df) :=
  pad_eq_self _ _ (rollingMean_length _ _)

lemma high20_eq (df : List Bar) :
    scan.high20 df = rollingMax 20 (highs df) := by
  unfold scan.high20
  exact pad_eq_self _ _ (by rw [rollingMax_length, highs_length, closes_length])

lemma avg_vol20_eq (df : List Bar) :
    scan.avg_vol20 df = rollingMean 20 (volumes df) := by
  unfold scan.avg_vol20
  exact pad_eq_self _ _ (by rw [rollingMean_length, volumes_length, closes_length])

lemma delta_length (df : List Bar) : (scan.delta df).length = df.length - 1 := by
  simp [scan.delta, diff, closes_length]

lemma up_length (df : List Bar) : (scan.up df).length = df.length - 1 := by
  rw [scan.up, List.length_map, delta_length]

lemma down_length (df : List Bar) : (scan.down df).length = df.length - 1 := by
  rw [scan.down, List.length_map, delta_length]

lemma roll_up_length (df : List Bar) :
    (scan.roll_up df).length = df.length - 1 := by
  rw [scan.roll_up, rollingMean_length, up_length]

lemma roll_down_length (df : List Bar) :
    (scan.roll_down df).length = df.length - 1 := by
  rw [scan.roll_down, rollingMean_length, down_length]

lemma getD_zipWith_of_lt (f : Option ℚ → Option ℚ → Option ℚ)
    (l1 l2 : List (Option ℚ)) (i : Nat) (h1 : i < l1.length) (h2 : i < l2.length) :
    (List.zipWith f l1 l2).getD i none = f (l1.getD i none) (l2.getD i none) := by
  simp [List.getD_eq_getElem?_getD, List.getElem?_zipWith',
    List.getElem?_eq_getElem h1, List.getElem?_eq_getElem h2]

lemma rsi_zip_eq (df : List Bar) :
    scan.rsi df =
      pad (List.zipWith rsiEntry (scan.roll_up df) (scan.roll_down df))
        (closes df).length := rfl

lemma rsi_length (df : List Bar) : (scan.rsi df).length = df.length := by
  simp only [rsi_zip_eq, pad, List.length_append, List.length_replicate,
    List.length_zipWith, roll_up_length, roll_down_length]
  have hc := closes_length df
  omega

lemma rsi_getD_zero (df : List Bar) (h : df ≠ []) :
    (scan.rsi df).getD 0 none = none := by
  have hn : 0 < df.length := List.length_pos.mpr h
  have hlen : (List.zipWith rsiEntry (scan.roll_up df) (scan.roll_down df)).length
      = df.length - 1 := by
    rw [List.length_zipWith, roll_up_length, roll_down_length]
    omega
  rw [rsi_zip_eq, pad, List.getD_eq_getElem?_getD, List.getElem?_append]
  rw [if_pos (by simp only [List.length_replicate, hlen, closes_length]; omega)]
  rw [List.getElem?_replicate,
    if_pos (by simp only [hlen, closes_length]; omega)]
  rfl

lemma rsi_getD_succ (df : List Bar) (j : Nat) (h : j + 1 < df.length) :
    (scan.rsi df).getD (j + 1) none =
      rsiEntry ((scan.roll_up df).getD j none) ((scan.roll_down df).getD j none) := by
  have hlen : (List.zipWith rsiEntry (scan.roll_up df) (scan.roll_down df)).length
      = df.length - 1 := by
    rw [List.length_zipWith, roll_up_length, roll_down_length]
    omega
  rw [rsi_zip_eq, pad, List.getD_eq_getElem?_getD, List.getElem?_append]
  rw [List.length_replicate, hlen, closes_length]
  have hpad : df.length - (df.length - 1) = 1 := by omega
  rw [hpad, if_neg (by omega)]
  have hj : j + 1 - 1 = j := by omega
  rw [hj, ← List.getD_eq_getElem?_getD]
  exact getD_zipWith_of_lt _ _ _ _ (by rw [roll_up_length]; omega)
    (by rw [roll_down_length]; omega)

lemma up_nonneg (df : List Bar) : ∀ x ∈ scan.up df, 0 ≤ x := by
  intro x hx
  rw [scan.up, List.mem_map] at hx
  obtain ⟨d, -, rfl⟩ := hx
  split
  · linarith
  · exact le_refl 0

lemma down_nonneg (df : List Bar) : ∀ x ∈ scan.down df, 0 ≤ x := by
  intro x hx
  rw [scan.down, List.mem_map] at hx
  obtain ⟨d, -, rfl⟩ := hx
  split
  · linarith
  · exact le_refl 0

lemma rollingMean_getD_nonneg (w : Nat) (xs : List ℚ) (i : Nat) (v : ℚ)
    (hx : ∀ x ∈ xs, 0 ≤ x) (h : (rollingMean w xs).getD i none = some v) :
    0 ≤ v := by
  by_cases hi : i < xs.length
  · rw [rollingMean_getD w xs i hi] at h
    split at h
    · exact absurd h (by simp)
    · have hv : (((xs.drop (i + 1 - w)).take w).sum) / (w : ℚ) = v :=
        Option.some.inj h
      have hsub : ((xs.drop (i + 1 - w)).take w) ⊆ xs :=
        (List.take_subset _ _).trans (List.drop_subset _ _)
      have hsum : 0 ≤ ((xs.drop (i + 1 - w)).take w).sum :=
        List.sum_nonneg fun x hx' => hx x (hsub hx')
      rw [← hv]
      exact div_nonneg hsum (by positivity)
  · rw [getD_eq_none_of_le _ _ (by rw [rollingMean_length]; omega)] at h
    exact absurd h (by simp)

lemma rsiEntry_some_none (g : ℚ) : rsiEntry (some g) none = none := rfl

lemma rsiEntry_none (d : Option ℚ) : rsiEntry none d = none := rfl

lemma rsiEntry_eq_none_iff (g s : ℚ) :
    rsiEntry (some g) (some s) = none ↔ (s = 0 ∧ g = 0) := by
  by_cases hs : s = 0 <;> by_cases hg : g = 0 <;> simp [rsiEntry, hs, hg]

lemma rsiEntry_bound (g s v : ℚ) (hg : 0 ≤ g) (hs : 0 ≤ s)
    (h : rsiEntry (some g) (some s) = some v) : 0 ≤ v ∧ v ≤ 100 := by
  by_cases h0 : s = 0
  · by_cases hg0 : g = 0
    · simp [rsiEntry, h0, hg0] at h
    · have hv : some v = some (100 : ℚ) := by
        rw [← h]
        simp [rsiEntry, h0, hg0]
      obtain rfl := Option.some.inj hv
      norm_num
  · simp [rsiEntry, h0] at h
    have hs' : 0 < s := lt_of_le_of_ne hs (Ne.symm h0)
    have hrs : 0 ≤ g / s := div_nonneg hg hs'.le
    have hpos : 0 < 100 / (1 + g / s) := by positivity
    have hle : 100 / (1 + g / s) ≤ 100 := div_le_self (by norm_num) (by linarith)
    constructor <;> linarith [h]

end Lemmas

/-- C1 (amended): after the one-slot left pad, `rsi14[i]` is absent iff
`i < 14` (one pad slot + 13 warm-up slots of the 14-period rolling mean) or
the 14-period average gain and average loss of the window ending at close
`i` are both zero (the all-flat window, where the float quotient is NaN).
In particular the first present RSI value can appear at index 14, not 15. -/
theorem C1_rsi_absence (df : List Bar) (i : Nat) (hi : i < df.length) :
    (scan.rsi df).getD i none = none ↔
      (i < 14 ∨ ((scan.roll_up df).getD (i - 1) none = some 0 ∧
                 (scan.roll_down df).getD (i - 1) none = some 0)) := by
  rcases i with _ | j
  · rw [rsi_getD_zero df (List.length_pos.mp hi)]
    simp
  · rw [rsi_getD_succ df j hi]
    have hju : j < (scan.up df).length := by rw [up_length]; omega
    have hjd : j < (scan.down df).length := by rw [down_length]; omega
    simp only [Nat.add_sub_cancel]
    rw [scan.roll_up, scan.roll_down, rollingMean_getD _ _ _ hju,
      rollingMean_getD _ _ _ hjd]
    by_cases h14 : j + 1 < 14
    · rw [if_pos h14, if_pos h14]
      simp [rsiEntry_none, h14]
    · rw [if_neg h14, if_neg h14, rsiEntry_eq_none_iff]
      constructor
      · rintro ⟨hs, hg⟩
        exact Or.inr ⟨by rw [hg], by rw [hs]⟩
      · rintro (h | ⟨hg, hs⟩)
        · omega
        · exact ⟨Option.some.inj hs, Option.some.inj hg⟩

/-- C1 witness: the amended absence law instantiated at the strictly
increasing 16-bar series and index 14. -/
theorem C1_witness :
    ((scan.rsi incSeries).getD 14 none = none ↔
      (14 < 14 ∨ ((scan.roll_up incSeries).getD (14 - 1) none = some 0 ∧
                  (scan.roll_down incSeries).getD (14 - 1) none = some 0))) :=
  C1_rsi_absence incSeries 14 (by decide)

/-- C1 counterexample: the claim "rsi14[i] is absent iff i < 15" fails in
both directions.  On the strictly increasing 16-bar series the entry at
index 14 is already present (and equals 100), although 14 < 15; on the flat
16-bar series the entry at index 15 is absent, although 15 ≥ 15. -/
theorem C1_counterexample :
    (scan.rsi incSeries).getD 14 none = some 100 ∧
    (scan.rsi flatSeries).getD 15 none = none :=
  ⟨by with_unfolding_all rfl, by with_unfolding_all rfl⟩

/-- C4: `sma20[i]` is absent iff `i < 19` and otherwise equals the mean of
the 20 trailing closes ending at `i`; `sma50[i]` is absent iff `i < 49`;
`high20[i]` and `avg_vol20[i]` are absent iff `i < 19`. -/
theorem C4_window_absence (df : List Bar) (i : Nat) (hi : i < df.length) :
    ((scan.sma20 df).getD i none = none ↔ i < 19) ∧
    (19 ≤ i → (scan.sma20 df).getD i none =
      some (((((closes df).drop (i - 19)).take 20).sum) / (20 : ℚ))) ∧
    ((scan.sma50 df).getD i none = none ↔ i < 49) ∧
    ((scan.high20 df).getD i none = none ↔ i < 19) ∧
    ((scan.avg_vol20 df).getD i none = none ↔ i < 19) := by
  have hic : i < (closes df).length := by rw [closes_length]; exact hi
  have hih : i < (highs df).length := by rw [highs_length]; exact hi
  have hiv : i < (volumes df).length := by rw [volumes_length]; exact hi
  refine ⟨?_, ?_, ?_, ?_, ?_⟩
  · rw [sma20_eq, rollingMean_getD_eq_none_iff _ _ _ hic]
    omega
  · intro h19
    rw [sma20_eq, rollingMean_getD _ _ _ hic, if_neg (by omega)]
    have h20 : i + 1 - 20 = i - 19 := by omega
    rw [h20]
    norm_num
  · rw [sma50_eq, rollingMean_getD_eq_none_iff _ _ _ hic]
    omega
  · rw [high20_eq, rollingMax_getD _ _ _ hih]
    by_cases h20 : i + 1 < 20
    · rw [if_pos h20]
      constructor
      · intro
        omega
      · intro
        rfl
    · rw [if_neg h20]
      have hne : ((highs df).drop (i + 1 - 20)).take 20 ≠ [] := by
        refine List.ne_nil_of_length_pos ?_
        simp only [List.length_take, List.length_drop, highs_length]
        omega
      constructor
      · intro hmax
        exact absurd (List.max?_eq_none_iff.mp hmax) hne
      · intro
        omega
  · rw [avg_vol20_eq, rollingMean_getD_eq_none_iff _ _ _ hiv]
    omega

/-- C4 witness: the window-absence law instantiated at the 16-bar flat
series and index 3. -/
theorem C4_witness :
    (((scan.sma20 flatSeries).getD 3 none = none ↔ 3 < 19) ∧
     (19 ≤ 3 → (scan.sma20 flatSeries).getD 3 none =
       some (((((closes flatSeries).drop (3 - 19)).take 20).sum) / (20 : ℚ))) ∧
     ((scan.sma50 flatSeries).getD 3 none = none ↔ 3 < 49) ∧
     ((scan.high20 flatSeries).getD 3 none = none ↔ 3 < 19) ∧
     ((scan.avg_vol20 flatSeries).getD 3 none = none ↔ 3 < 19)) :=
  C4_window_absence flatSeries 3 (by decide)

/-- C5: at any index whose 14-period average loss is zero while the average
gain is strictly positive, the aligned RSI entry is present and equals
exactly 100 (the float quotient saturates at `inf`). -/
theorem C5_rsi_saturates_at_100 (df : List Bar) (j : Nat) (g : ℚ)
    (hup : (scan.roll_up df).getD j none = some g) (hg : 0 < g)
    (hdown : (scan.roll_down df).getD j none = some 0) :
    (scan.rsi df).getD (j + 1) none = some 100 := by
  have hj : j < (scan.roll_up df).length := by
    by_contra hnj
    rw [getD_eq_none_of_le _ _ (by omega)] at hup
    exact Option.noConfusion hup
  have hjn : j + 1 < df.length := by
    rw [roll_up_length] at hj
    omega
  rw [rsi_getD_succ df j hjn, hup, hdown]
  simp [rsiEntry, hg.ne']

/-- C5 witness: on the strictly increasing series every delta is `+1`, so at
delta index 13 the average gain is `1`, the average loss is `0`, and
`rsi[14] = 100`. -/
theorem C5_witness : (scan.rsi incSeries).getD (13 + 1) none = some 100 :=
  C5_rsi_saturates_at_100 incSeries 13 1 (by with_unfolding_all rfl) (by norm_num)
    (by with_unfolding_all rfl)

/-- C6: every present `rsi14` entry lies between 0 and 100 inclusive. -/
theorem C6_rsi_bounded (df : List Bar) (i : Nat) (v : ℚ)
    (h : (scan.rsi df).getD i none = some v) : 0 ≤ v ∧ v ≤ 100 := by
  have hi : i < df.length := by
    by_contra hni
    rw [getD_eq_none_of_le _ _ (by rw [rsi_length]; omega)] at h
    exact Option.noConfusion h
  rcases i with _ | j
  · rw [rsi_getD_zero df (List.length_pos.mp hi)] at h
    exact Option.noConfusion h
  · rw [rsi_getD_succ df j hi] at h
    rcases hru : (scan.roll_up df).getD j none with _ | g
    · rw [hru, rsiEntry_none] at h
      exact Option.noConfusion h
    · rcases hrd : (scan.roll_down df).getD j none with _ | s
      · rw [hru, hrd, rsiEntry_some_none] at h
        exact Option.noConfusion h
      · rw [hru, hrd] at h
        have hgn : 0 ≤ g :=
          rollingMean_getD_nonneg 14 (scan.up df) j g (up_nonneg df) hru
        have hsn : 0 ≤ s :=
          rollingMean_getD_nonneg 14 (scan.down df) j s (down_nonneg df) hrd
        exact rsiEntry_bound g s v hgn hsn h

/-- C6 witness: the bound applied to the present value `rsi[14] = 100` of
the strictly increasing series. -/
theorem C6_witness : 0 ≤ (100 : ℚ) ∧ (100 : ℚ) ≤ 100 :=
  C6_rsi_bounded incSeries 14 100 (by with_unfolding_all rfl)

lemma lastIdx_eq (df : List Bar) : lastIdx df = df.length - 1 := by
  unfold lastIdx
  rw [closes_length]

lemma gtOpt_none (x : ℚ) : gtOpt x none = false := rfl

lemma gtOpt_eq_true_iff (x : ℚ) (o : Option ℚ) :
    gtOpt x o = true ↔ ∃ v, o = some v ∧ v < x := by
  cases o <;> simp [gtOpt]

/-- C2: the label is picked by fixed priority over the three predicates on
the last bar (Breakout, then PullbackBounce, then BullishMomentum, else
NoSetup), `valid` is true iff the label is not NoSetup, and when both the
breakout and pullback predicates hold the label is Breakout. -/
theorem C2_label_priority (df : List Bar) (h : df ≠ []) :
    ∃ r, scan.calculate_technicals df = some r ∧
      r.setup = (if scan.breakout df then "Breakout setup"
        else if scan.pullback_bounce df then "Pullback & bounce setup"
        else if scan.bullish_momentum df then "Bullish momentum setup"
        else "No clear setup") ∧
      (r.valid = true ↔ r.setup ≠ "No clear setup") ∧
      (scan.breakout df = true ∧ scan.pullback_bounce df = true →
        r.setup = "Breakout setup" ∧ r.setup ≠ "Pullback & bounce setup") := by
  have hn : ¬(closes df).length = 0 := by
    rw [closes_length]
    exact fun h0 => h (List.length_eq_zero.mp h0)
  unfold scan.calculate_technicals
  rw [if_neg hn]
  refine ⟨_, rfl, rfl, ?_, ?_⟩
  · rcases hb : scan.breakout df <;> rcases hp : scan.pullback_bounce df <;>
      rcases hm : scan.bullish_momentum df <;> simp [hb, hp, hm]
  · rintro ⟨hb, hp⟩
    simp [hb]

/-- C2 witness: the priority law instantiated at a one-bar series. -/
theorem C2_witness :
    ∃ r, scan.calculate_technicals [⟨100, 100, 100, 100, 1000⟩] = some r ∧
      r.setup = (if scan.breakout [⟨100, 100, 100, 100, 1000⟩] then "Breakout setup"
        else if scan.pullback_bounce [⟨100, 100, 100, 100, 1000⟩] then "Pullback & bounce setup"
        else if scan.bullish_momentum [⟨100, 100, 100, 100, 1000⟩] then "Bullish momentum setup"
        else "No clear setup") ∧
      (r.valid = true ↔ r.setup ≠ "No clear setup") ∧
      (scan.breakout [⟨100, 100, 100, 100, 1000⟩] = true ∧
        scan.pullback_bounce [⟨100, 100, 100, 100, 1000⟩] = true →
        r.setup = "Breakout setup" ∧ r.setup ≠ "Pullback & bounce setup") :=
  C2_label_priority [⟨100, 100, 100, 100, 1000⟩] (by decide)

set_option maxRecDepth 40000 in
/-- C3: the breakout predicate holds iff the last close strictly exceeds
the prior bar's 20-bar rolling high (so it is false when there is no prior
bar or that rolling high is still absent); and on the spec's scenario of 59
flat bars (close 100, high 101) followed by a bar with close 105,
`high20[58] = 101`, the predicate fires and the label is Breakout. -/
theorem C3_breakout_rule :
    (∀ df : List Bar, scan.breakout df = true ↔
      (2 ≤ df.length ∧ ∃ hv, (scan.high20 df).getD (df.length - 2) none = some hv ∧
        hv < (closes df).getD (df.length - 1) 0)) ∧
    (scan.high20 breakoutSeries).getD 58 none = some 101 ∧
    scan.breakout breakoutSeries = true ∧
    (scan.calculate_technicals breakoutSeries).map TechResult.setup =
      some "Breakout setup" := by
  refine ⟨?_, ?_, ?_, ?_⟩
  · intro df
    unfold scan.breakout
    rw [lastIdx_eq]
    by_cases h2 : 2 ≤ df.length
    · rw [if_pos (by omega)]
      have hidx : df.length - 1 - 1 = df.length - 2 := by omega
      rw [hidx, gtOpt_eq_true_iff]
      simp [h2]
    · rw [if_neg (by omega)]
      simp [h2]
  · with_unfolding_all rfl
  · with_unfolding_all rfl
  · with_unfolding_all rfl

/-- C7: the engine errors exactly on the empty series — the empty input
raises (modelled as `none`, the IndexError from `sma50[-1]` on the empty
list), and every non-empty series produces a result. -/
theorem C7_error_iff_empty (df : List Bar) :
    scan.calculate_technicals df = none ↔ df = [] := by
  unfold scan.calculate_technicals
  rcases df with _ | ⟨b, rest⟩
  · simp [closes]
  · rw [if_neg (by rw [closes_length]; simp)]
    simp

/-- C8: a one-bar series classifies to `valid = false`, label NoSetup,
without error; every indicator slot of the length-1 frame is absent. -/
theorem C8_single_bar (b : Bar) :
    scan.calculate_technicals [b] =
      some { sma20 := [none], sma50 := [none], valid := false,
             setup := "No clear setup" } := by
  rfl

lemma api_sma20_eq : api.sma20 = scan.sma20 := rfl

lemma api_sma50_eq : api.sma50 = scan.sma50 := rfl

lemma api_avg_vol20_eq : api.avg_vol20 = scan.avg_vol20 := rfl

lemma breakout_eq (df : List Bar) : scan.breakout df = api.breakout df := rfl

lemma rsi_strength_eq (df : List Bar) :
    scan.rsi_strength df = api.rsi_strength df := rfl

lemma above_sma20_eq (df : List Bar) :
    scan.above_sma20 df = api.above_sma20 df := rfl

lemma prop_ite_false (p : Prop) [Decidable p] (x : Bool) :
    (if p then x else false) = (decide p && x) := by
  by_cases hp : p <;> simp [hp]

lemma decide_bool (b : Bool) : decide (b = true) = b := by
  cases b <;> rfl

lemma pb_shape (a g c d l e : Bool) :
    (((a && g) && ((c && d) && l)) && (c && e)) =
      (((((a && g) && c) && d) && l) && e) := by
  revert a g c d l e
  decide

lemma bg_shape (c x y : Bool) : (c && (x && y)) = ((c && x) && y) := by
  revert c x y
  decide

lemma pullback_eq (df : List Bar) :
    scan.pullback_bounce df = api.pullback df := by
  simp only [scan.pullback_bounce, api.pullback, prop_ite_false, decide_bool,
    api_sma50_eq, api_sma20_eq]
  exact pb_shape _ _ _ _ _ _

lemma big_green_eq (df : List Bar) : scan.big_green df = api.big_green df := by
  simp only [scan.big_green, api.big_green, prop_ite_false]
  exact bg_shape _ _ _

lemma volume_spike_eq (df : List Bar) :
    scan.volume_spike df = api.volume_spike df := by
  simp only [scan.volume_spike, api.volume_spike, prop_ite_false, decide_bool,
    api_avg_vol20_eq]

lemma bullish_eq (df : List Bar) :
    scan.bullish_momentum df = api.bullish df := by
  unfold scan.bullish_momentum api.bullish
  rw [volume_spike_eq, big_green_eq, rsi_strength_eq, above_sma20_eq]

/-- C9: the near-duplicate implementations agree — on every input series
`calculate_technicals` of `src/scan.py` and of `src/api/scan_disabled.py`
return identical results (same sma arrays, valid flag and label). -/
theorem C9_duplicates_agree (df : List Bar) :
    scan.calculate_technicals df = api.calculate_technicals df := by
  unfold scan.calculate_technicals api.calculate_technicals
  rw [breakout_eq, pullback_eq, bullish_eq, api_sma20_eq, api_sma50_eq]

lemma sma50_getD_none_of_short (df : List Bar) (h : df.length < 50) :
    (scan.sma50 df).getD (lastIdx df) none = none := by
  rw [lastIdx_eq]
  rcases Nat.eq_zero_or_pos df.length with h0 | hpos
  · apply getD_eq_none_of_le
    rw [sma50_eq, rollingMean_length, closes_length]
    omega
  · rw [sma50_eq, rollingMean_getD_eq_none_iff _ _ _ (by rw [closes_length]; omega)]
    omega

lemma avg_vol20_getD_none_of_short (df : List Bar) (h : df.length < 20) :
    (scan.avg_vol20 df).getD (lastIdx df) none = none := by
  rw [lastIdx_eq]
  rcases Nat.eq_zero_or_pos df.length with h0 | hpos
  · apply getD_eq_none_of_le
    rw [avg_vol20_eq, rollingMean_length, volumes_length]
    omega
  · rw [avg_vol20_eq,
      rollingMean_getD_eq_none_iff _ _ _ (by rw [volumes_length]; omega)]
    omega

lemma breakout_false_of_short (df : List Bar) (h : df.length < 20) :
    scan.breakout df = false := by
  simp only [scan.breakout]
  by_cases hI : 1 ≤ lastIdx df
  · rw [if_pos hI]
    have h2 : 2 ≤ df.length := by
      rw [lastIdx_eq] at hI
      omega
    have hnone : (scan.high20 df).getD (lastIdx df - 1) none = none := by
      rw [lastIdx_eq, high20_eq,
        rollingMax_getD _ _ _ (by rw [highs_length]; omega), if_pos (by omega)]
    rw [hnone, gtOpt_none]
  · rw [if_neg hI]

lemma pullback_false_of_short (df : List Bar) (h : df.length < 50) :
    scan.pullback_bounce df = false := by
  simp only [scan.pullback_bounce]
  rw [sma50_getD_none_of_short df h]
  simp

lemma bullish_false_of_short (df : List Bar) (h : df.length < 20) :
    scan.bullish_momentum df = false := by
  unfold scan.bullish_momentum
  have hvs : scan.volume_spike df = false := by
    simp only [scan.volume_spike]
    rw [avg_vol20_getD_none_of_short df h]
    simp
  rw [hvs]
  simp

/-- C10: any non-empty series with fewer than 20 bars classifies to
`valid = false`, label NoSetup: the three predicates all reference an
indicator value (high20[i-1], sma50[i] or avgVolume20[i]) that is still in
its absence window. -/
theorem C10_short_series (df : List Bar) (h1 : df ≠ []) (h2 : df.length < 20) :
    (scan.calculate_technicals df).map (fun r => (r.valid, r.setup)) =
      some (false, "No clear setup") := by
  have hn : ¬(closes df).length = 0 := by
    rw [closes_length]
    exact fun h0 => h1 (List.length_eq_zero.mp h0)
  have hb := breakout_false_of_short df h2
  have hp := pullback_false_of_short df (by omega)
  have hm := bullish_false_of_short df h2
  unfold scan.calculate_technicals
  rw [if_neg hn]
  simp [hb, hp, hm]

/-- C10 witness: the short-series law instantiated at the 16-bar increasing
series. -/
theorem C10_witness :
    (scan.calculate_technicals incSeries).map (fun r => (r.valid, r.setup)) =
      some (false, "No clear setup") :=
  C10_short_series incSeries (by decide) (by decide)
